import Mathlib

/-!
PirBOX-LITE: configuration header and the protocol core it parameterises.

`Code/PirBox-Lite/config.h` is a list of preprocessor constants plus two
documentation tables (supported spreading factors per bandwidth, and the
sync-word compatibility table).  The constants and the tables are embedded
below one-to-one, under the names the header gives them.

The checks and the derivation that the header documents in its comments (the
spreading-factor table, the private sync-word rule, the lower-byte rule of the
compatibility notes) are written as functions over those tables.  The functions
that consume the keys (`obfuscate`, `deobfuscate`, `frame`, `parse`) are not part
of the header; each of them is modelled from the specification and marked as
such in its doc comment.

Bytes are natural numbers; a byte list is well formed when every element is
below 256.  XOR on bytes never leaves that range, so no reduction modulo 256
is needed in the keystream.
-/

namespace PirBox

/-! ## Constants of `config.h` -/

/-- Line 3: `#define GATEWAY_KEY "xy"`. -/
def GATEWAY_KEY : String := "xy"

/-- Line 4: `#define NODE_NAME "PirBoxL"`. -/
def NODE_NAME : String := "PirBoxL"

/-- Line 5: `#define Encryption true`. -/
def Encryption : Bool := true

/-- Line 6: `#define encryption_key_length 4`. -/
def encryption_key_length : Nat := 4

/-- Line 7: `#define encryption_key { 0x4B, 0xA3, 0x3F, 0x9C }`. -/
def encryption_key : List Nat := [0x4B, 0xA3, 0x3F, 0x9C]

/-- Line 15: `#define BAND 868E6`.  The literal denotes the integer 868000000 (Hz). -/
def BAND : Nat := 868000000

/-- Line 16: `#define TX_OUTPUT_POWER 22` (dBm). -/
def TX_OUTPUT_POWER : Nat := 22

/-- Line 24: `#define LORA_BANDWIDTH 5` (4: 125 kHz, 5: 250 kHz, 6: 500 kHz). -/
def LORA_BANDWIDTH : Nat := 5

/-- Line 25: `#define LORA_SPREADING_FACTOR 10`; the value is read as the
spreading factor itself (SF10), the unit of the table of lines 18-22. -/
def LORA_SPREADING_FACTOR : Nat := 10

/-- Line 26: `#define LORA_CODINGRATE 1` (1: 4/5, 2: 4/6, 3: 4/7, 4: 4/8). -/
def LORA_CODINGRATE : Nat := 1

/-- Line 27: `#define LORA_PREAMBLE_LENGTH 12`. -/
def LORA_PREAMBLE_LENGTH : Nat := 12

/-- Line 28: `#define LORA_PAYLOADLENGTH 0` (0: variable length, explicit header). -/
def LORA_PAYLOADLENGTH : Nat := 0

/-- Line 29: `#define LORA_CRC_ON true`. -/
def LORA_CRC_ON : Bool := true

/-- Line 30: `#define LORA_SYNC_WORD 0x1424`. -/
def LORA_SYNC_WORD : Nat := 0x1424

/-- The three band values the comment on line 15 allows: 433E6, 868E6, 915E6. -/
def allowedBands : List Nat := [433000000, 868000000, 915000000]

/-- One row of the sync-word compatibility table (lines 36-42). -/
structure SyncWordRow where
  isPublic : Bool
  sx126x : Nat
  sx127x : Nat
  deriving DecidableEq, Repr

/-- The sync-word compatibility table of lines 38-42, row by row. -/
def syncWordTable : List SyncWordRow :=
  [ { isPublic := true,  sx126x := 0x3444, sx127x := 0x34 },
    { isPublic := false, sx126x := 0x1424, sx127x := 0x12 },
    { isPublic := false, sx126x := 0x1437, sx127x := 0x37 },
    { isPublic := false, sx126x := 0x14A9, sx127x := 0xA9 },
    { isPublic := false, sx126x := 0x14D5, sx127x := 0xD5 } ]

/-- The reserved public (LoRaWAN) sync word, first row of the table and line 47. -/
def PUBLIC_SYNC_WORD : Nat := 0x3444

/-- The high byte every private SX126x sync word starts with (line 45). -/
def PRIVATE_SYNC_HIGH : Nat := 0x14

/-- The UTF-8 bytes of a string, as natural numbers. -/
def utf8Bytes (s : String) : List Nat :=
  s.toList.flatMap fun c => (String.utf8EncodeChar c).map UInt8.toNat

/-- The payload of the end-to-end scenario, `"MOTION=1"`. -/
def motionPayload : List Nat := utf8Bytes "MOTION=1"

/-! ## Protocol core, modelled from the specification -/

/-- Modelled from the spec: the errors of sections 4.1, 4.3 and 7 (`InvalidKey`,
`PayloadTooLarge`, `ForeignNetwork`, `Malformed`); the header declares no error
type. -/
inductive CoreError where
  | InvalidKey
  | PayloadTooLarge
  | ForeignNetwork
  | Malformed
  deriving DecidableEq, Repr

/-- Decidable equality of results, needed to evaluate the model on inputs. -/
instance instDecEqResult {ε α : Type} [DecidableEq ε] [DecidableEq α] :
    DecidableEq (Except ε α)
  | .ok a, .ok b => if h : a = b then isTrue (by rw [h]) else isFalse (by intro e; cases e; exact h rfl)
  | .error a, .error b =>
      if h : a = b then isTrue (by rw [h]) else isFalse (by intro e; cases e; exact h rfl)
  | .ok _, .error _ => isFalse (by intro e; cases e)
  | .error _, .ok _ => isFalse (by intro e; cases e)

/-- Modelled from the spec: construction-time validation of an obfuscation key
(sections 4.1 and 9), absent from the header: it fails with `InvalidKey` when
the key length is 0 or exceeds 16. -/
def checkKey (key : List Nat) : Except CoreError Unit :=
  if key.length = 0 ∨ 16 < key.length then .error .InvalidKey else .ok ()

/-- Modelled from the spec: the keystream loop of section 4.1, absent from the
header.  The cursor `i` is the byte position; output byte `i` is
`payload[i] XOR key[i mod len(key)]`. -/
def xorFrom (key : List Nat) : Nat → List Nat → List Nat
  | _, [] => []
  | i, b :: rest => (b ^^^ key.getD (i % key.length) 0) :: xorFrom key (i + 1) rest

/-- Modelled from the spec: `obfuscate(payload, key)` of section 4.1, absent from
the header: key validation, then the repeating-key XOR from cursor 0. -/
def obfuscate (payload key : List Nat) : Except CoreError (List Nat) :=
  match checkKey key with
  | .error e => .error e
  | .ok () => .ok (xorFrom key 0 payload)

/-- Modelled from the spec: `deobfuscate(payload, key)` of section 4.1, absent
from the header; the spec states it is the same operation as `obfuscate`. -/
def deobfuscate (payload key : List Nat) : Except CoreError (List Nat) :=
  match checkKey key with
  | .error e => .error e
  | .ok () => .ok (xorFrom key 0 payload)

/-- Modelled from the spec: `tag(networkKey)` of section 4.2, absent from the
header: the marker embedded in every packet is the network key's bytes. -/
def tag (networkKey : List Nat) : List Nat := networkKey

/-- Modelled from the spec: `matches(received, expected)` of section 4.2, absent
from the header: length check, then byte equality; never fails. -/
def tagMatches (received expected : List Nat) : Bool :=
  received.length == expected.length && received == expected

/-- Modelled from the spec: the largest frame the radio carries.  The header only
documents the one-byte payload length field (`1..255`, line 28). -/
def maxFramePayload : Nat := 255

/-- Modelled from the spec: the obfuscation step of `frame`, bypassed when the
`Encryption` switch of the header is off (section 6). -/
def encodePayload (payload key : List Nat) : Except CoreError (List Nat) :=
  if Encryption then obfuscate payload key else .ok payload

/-- Modelled from the spec: the de-obfuscation step of `parse`, bypassed when the
`Encryption` switch of the header is off (section 6). -/
def decodePayload (payload key : List Nat) : Except CoreError (List Nat) :=
  if Encryption then deobfuscate payload key else .ok payload

/-- Modelled from the spec: `frame` of section 4.3, absent from the header.  The
wire bytes are `[len(senderId)] ++ senderId ++ tag ++ obfuscatedPayload`
(length-prefixed sender id); a frame longer than the radio maximum is rejected
with `PayloadTooLarge`, never truncated. -/
def frame (senderId networkKey payload key : List Nat) : Except CoreError (List Nat) :=
  match encodePayload payload key with
  | .error e => .error e
  | .ok body =>
      let wire := senderId.length :: (senderId ++ tag networkKey ++ body)
      if maxFramePayload < wire.length then .error .PayloadTooLarge else .ok wire

/-- Modelled from the spec: `parse` of section 4.3, absent from the header:
minimum-length check (`Malformed`), network tag check (`ForeignNetwork`),
sender id extraction, de-obfuscation of the remaining bytes. -/
def parse (wire expectedKey key : List Nat) : Except CoreError (List Nat × List Nat) :=
  match wire with
  | [] => .error .Malformed
  | n :: rest =>
      if rest.length < n + (tag expectedKey).length then .error .Malformed
      else
        let afterId := rest.drop n
        if tagMatches (afterId.take (tag expectedKey).length) expectedKey then
          match decodePayload (afterId.drop (tag expectedKey).length) key with
          | .error e => .error e
          | .ok plain => .ok (rest.take n, plain)
        else .error .ForeignNetwork

/-! ## Checks documented by the header's tables and notes -/

/-- The table of lines 18-22: the highest spreading factor each bandwidth code
supports (4: 125 kHz, 5: 250 kHz, 6: 500 kHz, codes of line 24); the lowest is SF5
in every row. -/
def maxSpreadingFactor : Nat → Option Nat
  | 4 => some 9
  | 5 => some 10
  | 6 => some 11
  | _ => none

/-- The spreading-factor/bandwidth check that the table of lines 18-22 documents.
The header holds the table as a comment and no function; the check is membership
of the pair in that table. -/
def sfSupported (bandwidth spreadingFactor : Nat) : Bool :=
  match maxSpreadingFactor bandwidth with
  | some hi => decide (5 ≤ spreadingFactor) && decide (spreadingFactor ≤ hi)
  | none => false

/-- The private sync-word rule of the notes on lines 45-48: a 16-bit value that
starts with `0x14` and is not the reserved public value `0x3444`. -/
def isPrivateSyncWord (w : Nat) : Bool :=
  decide (w < 2 ^ 16) && decide (w / 256 = PRIVATE_SYNC_HIGH) && decide (w ≠ PUBLIC_SYNC_WORD)

/-- The 16-bit to 8-bit derivation stated by the note on line 46 (the SX127x word
is "derived from the lower byte, `0xYZ` from `0x14YZ`"); the specification names
this conversion `toLegacySyncWord`. -/
def toLegacySyncWord (word16 : Nat) : Nat := word16 % 256

/-- The SX127x equivalent the compatibility table lists for a 16-bit sync word. -/
def listedLegacy (word16 : Nat) : Option Nat :=
  (syncWordTable.find? fun r => r.sx126x == word16).map fun r => r.sx127x

/-! ## Helper lemmas about the keystream -/

theorem xorFrom_length (key : List Nat) (p : List Nat) (i : Nat) :
    (xorFrom key i p).length = p.length := by
  induction p generalizing i with
  | nil => rfl
  | cons b rest ih => simp [xorFrom, ih]

theorem xorFrom_xorFrom (key : List Nat) (p : List Nat) (i : Nat) :
    xorFrom key i (xorFrom key i p) = p := by
  induction p generalizing i with
  | nil => rfl
  | cons b rest ih => simp [xorFrom, ih, Nat.xor_cancel_right]

theorem checkKey_ok (key : List Nat) (hlo : 2 ≤ key.length) (hhi : key.length ≤ 16) :
    checkKey key = .ok () := by
  unfold checkKey
  rw [if_neg]
  omega

theorem obfuscate_ok (p key : List Nat) (hlo : 2 ≤ key.length) (hhi : key.length ≤ 16) :
    obfuscate p key = .ok (xorFrom key 0 p) := by
  simp [obfuscate, checkKey_ok key hlo hhi]

theorem deobfuscate_ok (p key : List Nat) (hlo : 2 ≤ key.length) (hhi : key.length ≤ 16) :
    deobfuscate p key = .ok (xorFrom key 0 p) := by
  simp [deobfuscate, checkKey_ok key hlo hhi]

theorem xorFrom_eq_iff (k1 k2 : List Nat) (p : List Nat) (i : Nat) :
    xorFrom k1 i p = xorFrom k2 i p ↔
      ∀ j, j < p.length →
        k1.getD ((i + j) % k1.length) 0 = k2.getD ((i + j) % k2.length) 0 := by
  induction p generalizing i with
  | nil => simp [xorFrom]
  | cons b rest ih =>
    simp only [xorFrom, List.cons.injEq, Nat.xor_right_inj, ih, List.length_cons]
    constructor
    · rintro ⟨h0, hrest⟩ j hj
      cases j with
      | zero => simpa using h0
      | succ j =>
        have := hrest j (by omega)
        rwa [show i + 1 + j = i + (j + 1) by omega] at this
    · intro h
      refine ⟨by simpa using h 0 (by omega), fun j hj => ?_⟩
      have := h (j + 1) (by omega)
      rwa [show i + (j + 1) = i + 1 + j by omega] at this

theorem xorFrom_getD (key : List Nat) (p : List Nat) (s i : Nat) (hi : i < p.length) :
    (xorFrom key s p).getD i 0 = p.getD i 0 ^^^ key.getD ((s + i) % key.length) 0 := by
  induction p generalizing s i with
  | nil => simp at hi
  | cons b rest ih =>
    cases i with
    | zero => simp [xorFrom]
    | succ i =>
      simp only [xorFrom, List.getD_cons_succ]
      rw [ih (s + 1) i (by simpa using hi), show s + 1 + i = s + (i + 1) by omega]

theorem xorFrom_bytes (key : List Nat) (p : List Nat) (s : Nat)
    (hkey : ∀ b ∈ key, b < 256) (hp : ∀ b ∈ p, b < 256) :
    ∀ b ∈ xorFrom key s p, b < 256 := by
  induction p generalizing s with
  | nil => simp [xorFrom]
  | cons a rest ih =>
    have hk : key.getD (s % key.length) 0 < 2 ^ 8 := by
      by_cases hlt : s % key.length < key.length
      · rw [List.getD_eq_getElem key 0 hlt]
        exact hkey _ (List.getElem_mem hlt)
      · rw [List.getD_eq_default key 0 (by omega)]
        decide
    have ha : a < 2 ^ 8 := hp a (by simp)
    intro b hb
    simp only [xorFrom, List.mem_cons] at hb
    rcases hb with rfl | hb
    · exact Nat.xor_lt_two_pow ha hk
    · exact ih (s + 1) (fun c hc => hp c (by simp [hc])) b hb

theorem exists_getD_ne (k1 k2 : List Nat) (hlen : k1.length = k2.length) (hne : k1 ≠ k2) :
    ∃ i, i < k1.length ∧ k1.getD i 0 ≠ k2.getD i 0 := by
  by_contra hcon
  push_neg at hcon
  apply hne
  apply List.ext_getElem hlen
  intro n h1 h2
  have := hcon n h1
  rwa [List.getD_eq_getElem k1 0 h1, List.getD_eq_getElem k2 0 h2] at this

/-! ## The header's constants -/

/-- C1: the declared key length equals the number of bytes listed in
`encryption_key`, it is 4 and non-zero, and for every byte position `i` the
index `i mod encryption_key_length` is a valid index into `encryption_key`. -/
theorem key_length_matches_array :
    encryption_key_length = encryption_key.length ∧
    encryption_key_length = 4 ∧
    encryption_key = [0x4B, 0xA3, 0x3F, 0x9C] ∧
    encryption_key_length ≠ 0 ∧
    ∀ i : Nat, i % encryption_key_length < encryption_key.length := by
  refine ⟨rfl, rfl, rfl, by decide, fun i => ?_⟩
  show i % 4 < 4
  exact Nat.mod_lt i (by decide)

/-- C9: the shipped obfuscation key has between 2 and 16 values, so it is neither
empty nor longer than 16 and its validation does not fail with `InvalidKey`; and
every value lies in `0x00..0xFF`. -/
theorem shipped_key_is_valid :
    2 ≤ encryption_key.length ∧ encryption_key.length ≤ 16 ∧
    encryption_key ≠ [] ∧
    checkKey encryption_key = .ok () ∧
    checkKey encryption_key ≠ .error .InvalidKey ∧
    ∀ b ∈ encryption_key, 0x00 ≤ b ∧ b ≤ 0xFF := by
  decide

/-- C10: the shipped radio constants lie in the ranges of the data model and equal
the wire profile: `BAND` is one of 433E6, 868E6, 915E6 (it is 868E6);
`LORA_BANDWIDTH` is one of the codes 4, 5, 6; `LORA_CODINGRATE` is in 1..4;
`LORA_PREAMBLE_LENGTH` is 12, hence at least 6; `LORA_PAYLOADLENGTH` is 0;
`LORA_CRC_ON` is true; `TX_OUTPUT_POWER` is 22. -/
theorem shipped_radio_constants :
    BAND = 868000000 ∧ BAND ∈ allowedBands ∧
    (LORA_BANDWIDTH = 4 ∨ LORA_BANDWIDTH = 5 ∨ LORA_BANDWIDTH = 6) ∧
    (1 ≤ LORA_CODINGRATE ∧ LORA_CODINGRATE ≤ 4) ∧
    LORA_PREAMBLE_LENGTH = 12 ∧ 6 ≤ LORA_PREAMBLE_LENGTH ∧
    LORA_PAYLOADLENGTH = 0 ∧
    LORA_CRC_ON = true ∧
    TX_OUTPUT_POWER = 22 := by
  decide

/-! ## Spreading factor and sync word -/

/-- C2: the spreading-factor/bandwidth check is the documented table (code 4 =
125 kHz allows SF5-SF9, code 5 = 250 kHz allows SF5-SF10, code 6 = 500 kHz allows
SF5-SF11, any other code nothing); the shipped pair (`LORA_BANDWIDTH` = 5,
`LORA_SPREADING_FACTOR` = 10) is accepted, and the pair (125 kHz, SF11) is
rejected by the same check. -/
theorem shipped_sf_bandwidth_accepted :
    (∀ bw sf : Nat, sfSupported bw sf = true ↔
      (bw = 4 ∧ 5 ≤ sf ∧ sf ≤ 9) ∨ (bw = 5 ∧ 5 ≤ sf ∧ sf ≤ 10) ∨
      (bw = 6 ∧ 5 ≤ sf ∧ sf ≤ 11)) ∧
    LORA_BANDWIDTH = 5 ∧ LORA_SPREADING_FACTOR = 10 ∧
    sfSupported LORA_BANDWIDTH LORA_SPREADING_FACTOR = true ∧
    sfSupported 4 11 = false := by
  refine ⟨fun bw sf => ?_, rfl, rfl, by decide, by decide⟩
  unfold sfSupported maxSpreadingFactor
  split <;> rename_i h
  · split at h
    · simp only [Option.some.injEq] at h
      subst h
      simp
    · simp only [Option.some.injEq] at h
      subst h
      simp
    · simp only [Option.some.injEq] at h
      subst h
      simp
    · simp at h
  · split at h
    · simp at h
    · simp at h
    · simp at h
    · constructor
      · intro hf
        simp at hf
      · rintro (⟨rfl, -⟩ | ⟨rfl, -⟩ | ⟨rfl, -⟩) <;> simp_all

/-- C3: the configured sync word `0x1424` is a 16-bit value whose high byte is the
private value `0x14`, and it is not the reserved public value `0x3444`; the check
requiring exactly this accepts `0x1424` and rejects `0x3444`. -/
theorem shipped_sync_word_is_private :
    LORA_SYNC_WORD = 0x1424 ∧
    LORA_SYNC_WORD < 2 ^ 16 ∧
    LORA_SYNC_WORD / 256 = 0x14 ∧
    LORA_SYNC_WORD ≠ 0x3444 ∧
    (∀ w : Nat, isPrivateSyncWord w = true ↔ (w < 2 ^ 16 ∧ w / 256 = 0x14 ∧ w ≠ 0x3444)) ∧
    isPrivateSyncWord LORA_SYNC_WORD = true ∧
    isPrivateSyncWord 0x3444 = false := by
  refine ⟨rfl, by decide, by decide, by decide, fun w => ?_, by decide, by decide⟩
  simp [isPrivateSyncWord, PRIVATE_SYNC_HIGH, PUBLIC_SYNC_WORD, and_assoc]

/-! ## Sync-word compatibility table -/

/-- C4, as stated, fails: it is not the case that every row of the compatibility
table lists the lower byte of its 16-bit word; the public row lists `0x34` for
`0x3444`, whose lower byte is `0x44`. -/
theorem table_not_all_lower_byte :
    ¬ (∀ r ∈ syncWordTable, r.sx127x = toLegacySyncWord r.sx126x) := by
  intro h
  have h0 := h { isPublic := true, sx126x := 0x3444, sx127x := 0x34 } (by decide)
  revert h0
  decide

/-- C4, amended: for every row of the compatibility table other than the public
row `0x3444` and the row `0x1424`, that is for the custom private rows `0x1437`,
`0x14A9` and `0x14D5`, the 16-bit word has the form `0x14YZ` and the listed SX127x
equivalent is `toLegacySyncWord word16 = word16 mod 256`, a byte; the public row
`0x3444` is not of the form `0x14YZ` and lists `0x34`, not its lower byte `0x44`. -/
theorem custom_rows_lower_byte (r : SyncWordRow) (hr : r ∈ syncWordTable)
    (hpub : r.sx126x ≠ 0x3444) (hrec : r.sx126x ≠ 0x1424) :
    (r.sx126x = 0x1437 ∨ r.sx126x = 0x14A9 ∨ r.sx126x = 0x14D5) ∧
    r.isPublic = false ∧
    r.sx126x / 256 = 0x14 ∧
    r.sx127x = toLegacySyncWord r.sx126x ∧
    toLegacySyncWord r.sx126x = r.sx126x % 256 ∧
    r.sx127x < 256 ∧
    (0x3444 / 256 ≠ 0x14 ∧ listedLegacy 0x3444 = some 0x34 ∧
      toLegacySyncWord 0x3444 = 0x44) := by
  simp only [syncWordTable, List.mem_cons, List.mem_singleton, List.not_mem_nil,
    or_false] at hr
  rcases hr with rfl | rfl | rfl | rfl | rfl
  · exact absurd rfl hpub
  · exact absurd rfl hrec
  · decide
  · decide
  · decide

/-- Witness for `custom_rows_lower_byte`: the row `0x1437 | 0x37`. -/
theorem custom_rows_lower_byte_witness :
    ({ isPublic := false, sx126x := 0x1437, sx127x := 0x37 } : SyncWordRow) ∈ syncWordTable ∧
    (0x1437 : Nat) ≠ 0x3444 ∧ (0x1437 : Nat) ≠ 0x1424 ∧
    (0x37 : Nat) = toLegacySyncWord 0x1437 :=
  ⟨by decide, by decide, by decide,
    (custom_rows_lower_byte { isPublic := false, sx126x := 0x1437, sx127x := 0x37 }
      (by decide) (by decide) (by decide)).2.2.2.1⟩

/-- C5, as stated, fails: the lower-byte conversion applied to `LORA_SYNC_WORD`
= `0x1424` does not yield `0x12`. -/
theorem shipped_sync_word_lower_byte_not_0x12 :
    ¬ (toLegacySyncWord LORA_SYNC_WORD = 0x12) := by
  decide

/-- C5, amended: the configured private sync word `0x1424` is the one the
compatibility table (line 39, and the comment on line 30) lists as equivalent to
the legacy 8-bit sync word `0x12`; the lower byte of `LORA_SYNC_WORD` is `0x24`. -/
theorem shipped_sync_word_listed_legacy :
    LORA_SYNC_WORD = 0x1424 ∧
    ({ isPublic := false, sx126x := LORA_SYNC_WORD, sx127x := 0x12 } : SyncWordRow)
      ∈ syncWordTable ∧
    listedLegacy LORA_SYNC_WORD = some 0x12 ∧
    toLegacySyncWord LORA_SYNC_WORD = 0x24 := by
  decide

/-! ## Keystream obfuscation -/

/-- C6: obfuscation is self-inverse.  For every payload `p` (the empty one
included) and every key `k` of 2 to 16 bytes, `obfuscate p k` succeeds with an
output of the length of `p`, output byte `i` being `p[i] XOR k[i mod len k]`, and
`deobfuscate` of that output under `k` returns `p`; the same holds for the shipped
key `{0x4B, 0xA3, 0x3F, 0x9C}` of length `encryption_key_length` = 4. -/
theorem obfuscate_self_inverse (p k : List Nat) (hlo : 2 ≤ k.length)
    (hhi : k.length ≤ 16) :
    (∃ c, obfuscate p k = .ok c ∧ c.length = p.length ∧
      (∀ i, i < p.length → c.getD i 0 = p.getD i 0 ^^^ k.getD (i % k.length) 0) ∧
      deobfuscate c k = .ok p) ∧
    (encryption_key.length = encryption_key_length ∧ encryption_key_length = 4 ∧
      ∃ c, obfuscate p encryption_key = .ok c ∧ c.length = p.length ∧
        deobfuscate c encryption_key = .ok p) := by
  have hself : ∀ key : List Nat, 2 ≤ key.length → key.length ≤ 16 →
      deobfuscate (xorFrom key 0 p) key = .ok p := by
    intro key h2 h16
    rw [deobfuscate_ok _ key h2 h16, xorFrom_xorFrom]
  refine ⟨⟨xorFrom k 0 p, obfuscate_ok p k hlo hhi, xorFrom_length k p 0, ?_,
    hself k hlo hhi⟩, rfl, rfl, xorFrom encryption_key 0 p,
    obfuscate_ok p encryption_key (by decide) (by decide),
    xorFrom_length encryption_key p 0, hself encryption_key (by decide) (by decide)⟩
  intro i hi
  simpa using xorFrom_getD k p 0 i hi

/-- Witness for `obfuscate_self_inverse`: the shipped key and the payload
`"MOTION=1"`. -/
theorem obfuscate_self_inverse_witness :
    2 ≤ encryption_key.length ∧ encryption_key.length ≤ 16 ∧
    ∃ c, obfuscate motionPayload encryption_key = .ok c ∧
      c.length = motionPayload.length ∧
      deobfuscate c encryption_key = .ok motionPayload :=
  ⟨by decide, by decide,
    (obfuscate_self_inverse motionPayload encryption_key (by decide) (by decide)).2.2.2⟩

/-- C7, as stated, fails: the shipped key and the key that differs from it only in
its last byte are different keys of length 4, yet they give the same ciphertext
for the non-empty three-byte payload `"MOT"`, which never reaches the last key
byte. -/
theorem different_keys_same_ciphertext :
    ¬ (∀ p k1 k2 : List Nat, k1 ≠ k2 → 2 ≤ k1.length → k1.length ≤ 16 →
        2 ≤ k2.length → k2.length ≤ 16 → p ≠ [] →
        obfuscate p k1 ≠ obfuscate p k2) := by
  intro h
  exact h (utf8Bytes "MOT") encryption_key [0x4B, 0xA3, 0x3F, 0x9D]
    (by decide) (by decide) (by decide) (by decide) (by decide) (by decide) (by decide)

/-- C7, amended: for keys `k1`, `k2` of 2 to 16 bytes and a payload `p`,
`obfuscate p k1` and `obfuscate p k2` differ exactly when the two keystreams
differ at some position `i < len p`, that is `k1[i mod len k1] ≠ k2[i mod len k2]`;
in particular different keys of equal length give different ciphertexts for every
payload at least as long as the keys. -/
theorem obfuscate_differs_iff (p k1 k2 : List Nat)
    (h1lo : 2 ≤ k1.length) (h1hi : k1.length ≤ 16)
    (h2lo : 2 ≤ k2.length) (h2hi : k2.length ≤ 16) :
    (obfuscate p k1 ≠ obfuscate p k2 ↔
      ∃ i, i < p.length ∧ k1.getD (i % k1.length) 0 ≠ k2.getD (i % k2.length) 0) ∧
    (k1.length = k2.length → k1.length ≤ p.length → k1 ≠ k2 →
      obfuscate p k1 ≠ obfuscate p k2) := by
  have hiff : obfuscate p k1 ≠ obfuscate p k2 ↔
      ∃ i, i < p.length ∧ k1.getD (i % k1.length) 0 ≠ k2.getD (i % k2.length) 0 := by
    rw [obfuscate_ok p k1 h1lo h1hi, obfuscate_ok p k2 h2lo h2hi, Ne, Except.ok.injEq,
      xorFrom_eq_iff]
    simp only [Nat.zero_add]
    push_neg
    rfl
  refine ⟨hiff, fun hlen hp hne => hiff.mpr ?_⟩
  obtain ⟨i, hi, hd⟩ := exists_getD_ne k1 k2 hlen hne
  refine ⟨i, by omega, ?_⟩
  rwa [Nat.mod_eq_of_lt hi, Nat.mod_eq_of_lt (hlen ▸ hi)]

/-- Witness for `obfuscate_differs_iff`: the shipped key and the example key of
line 10, `{0x1F, 0x7E, 0xC2, 0x5A}`, on the payload `"MOTION=1"`. -/
theorem obfuscate_differs_iff_witness :
    2 ≤ encryption_key.length ∧ encryption_key.length ≤ 16 ∧
    2 ≤ [0x1F, 0x7E, 0xC2, 0x5A].length ∧ [0x1F, 0x7E, 0xC2, 0x5A].length ≤ 16 ∧
    encryption_key.length ≤ motionPayload.length ∧
    obfuscate motionPayload encryption_key ≠
      obfuscate motionPayload [0x1F, 0x7E, 0xC2, 0x5A] :=
  ⟨by decide, by decide, by decide, by decide, by decide,
    (obfuscate_differs_iff motionPayload encryption_key [0x1F, 0x7E, 0xC2, 0x5A]
      (by decide) (by decide) (by decide) (by decide)).2 (by decide) (by decide) (by decide)⟩

/-! ## Framing -/

/-- C8: framing round-trips.  For every sender id, network key, payload and
obfuscation key of 2 to 16 bytes whose assembled frame fits the radio maximum,
`frame` succeeds and `parse` of the wire bytes under the same network key and
obfuscation key returns exactly the sender id and the payload.  In the shipped
configuration (`NODE_NAME` "PirBoxL", `GATEWAY_KEY` "xy", key
`{0x4B, 0xA3, 0x3F, 0x9C}`) the payload "MOTION=1" is obfuscated to
`06 EC 6B D5 04 ED 02 AD` and parses back to ("PirBoxL", "MOTION=1"). -/
theorem frame_parse_roundtrip (senderId networkKey payload key : List Nat)
    (hlo : 2 ≤ key.length) (hhi : key.length ≤ 16)
    (hfit : 1 + senderId.length + networkKey.length + payload.length ≤ maxFramePayload) :
    (∃ wire, frame senderId networkKey payload key = .ok wire ∧
      parse wire networkKey key = .ok (senderId, payload)) ∧
    (obfuscate motionPayload encryption_key
        = .ok [0x06, 0xEC, 0x6B, 0xD5, 0x04, 0xED, 0x02, 0xAD] ∧
      ∃ wire, frame (utf8Bytes NODE_NAME) (utf8Bytes GATEWAY_KEY) motionPayload
          encryption_key = .ok wire ∧
        parse wire (utf8Bytes GATEWAY_KEY) encryption_key
          = .ok (utf8Bytes NODE_NAME, motionPayload)) := by
  refine ⟨⟨senderId.length :: (senderId ++ tag networkKey ++ xorFrom key 0 payload),
    ?_, ?_⟩, by decide, _, rfl, by decide⟩
  · have hlen : ¬ maxFramePayload <
        (senderId.length :: (senderId ++ tag networkKey ++ xorFrom key 0 payload)).length := by
      simp only [List.length_cons, List.length_append, tag, xorFrom_length]
      omega
    simp only [frame, encodePayload, Encryption, if_true, obfuscate_ok payload key hlo hhi]
    rw [if_neg hlen]
  · have hmin : ¬ (senderId ++ tag networkKey ++ xorFrom key 0 payload).length <
        senderId.length + (tag networkKey).length := by
      simp only [List.length_append]
      omega
    simp only [parse]
    rw [if_neg hmin]
    simp [tag, tagMatches, decodePayload, Encryption, deobfuscate_ok _ key hlo hhi,
      xorFrom_xorFrom, List.append_assoc]

/-- Witness for `frame_parse_roundtrip`: the shipped configuration with the
payload `"MOTION=1"`. -/
theorem frame_parse_roundtrip_witness :
    2 ≤ encryption_key.length ∧ encryption_key.length ≤ 16 ∧
    1 + (utf8Bytes NODE_NAME).length + (utf8Bytes GATEWAY_KEY).length
      + motionPayload.length ≤ maxFramePayload ∧
    ∃ wire, frame (utf8Bytes NODE_NAME) (utf8Bytes GATEWAY_KEY) motionPayload
        encryption_key = .ok wire ∧
      parse wire (utf8Bytes GATEWAY_KEY) encryption_key
        = .ok (utf8Bytes NODE_NAME, motionPayload) :=
  ⟨by decide, by decide, by decide,
    (frame_parse_roundtrip (utf8Bytes NODE_NAME) (utf8Bytes GATEWAY_KEY) motionPayload
      encryption_key (by decide) (by decide) (by decide)).1⟩

end PirBox
